import Mathlib

/-!
Verification of the ProjectReminder backend's recurrence expansion and sync
reconciliation logic (src/server/database.py and src/server/main.py), over a
shallow embedding of the relevant Python code.

Conventions of the embedding:
* Python `datetime.date` values are modelled by `PyDate` (proleptic Gregorian
  components); the `date(...)` constructor, which raises `ValueError` on
  out-of-range components, is modelled by `mkDate : ... → Option PyDate`.
* ISO-8601 timestamp strings are carried as `String`; Python compares them
  with lexicographic string order, which Lean's `String` order mirrors.
* SQLite rows of the `reminders` table are modelled either as a structured
  record (`RemRow`, for the recurrence generator, which builds rows from a
  fixed 19-column INSERT) or as a total association list over the table's
  columns (`DbRow`, for the sync path, which patches rows from client dicts).
* Unbounded Python `while` loops take explicit fuel; returning `none` models
  non-termination of the source loop.
* Each `db_execute` call opens its own connection and commits on success /
  rolls back on failure, so sync-side operations thread the committed store
  and report errors separately; `generate_recurrence_instances` runs all its
  inserts on a single connection with a final commit (rollback on exception),
  which its wrapper models directly.
-/

namespace ProjectReminder

/-! ## Calendar model (Python `datetime.date` / `calendar` semantics) -/

/-- Gregorian leap-year rule, as used by Python's `calendar.isleap`. -/
def isLeapYear (y : Int) : Bool :=
  y % 4 == 0 && (y % 100 != 0 || y % 400 == 0)

/-- Number of days in a month, as in Python's `calendar.monthrange(y, m)[1]`
(defined here for arbitrary `m`; callers guard the 1..12 range). -/
def daysInMonth (y m : Int) : Int :=
  if m == 2 then (if isLeapYear y then 29 else 28)
  else if m == 4 || m == 6 || m == 9 || m == 11 then 30
  else 31

/-- A calendar date as year/month/day components, like `datetime.date`. -/
structure PyDate where
  year : Int
  month : Int
  day : Int
deriving DecidableEq, Repr

/-- Component ranges accepted by Python's `date` constructor
(`MINYEAR = 1`, `MAXYEAR = 9999`). -/
def PyDate.isValid (d : PyDate) : Bool :=
  1 ≤ d.year && d.year ≤ 9999 && 1 ≤ d.month && d.month ≤ 12 &&
    1 ≤ d.day && d.day ≤ daysInMonth d.year d.month

/-- Python `date(y, m, d)`: `none` models the `ValueError` raised on
out-of-range components. -/
def mkDate (y m d : Int) : Option PyDate :=
  if (PyDate.mk y m d).isValid then some ⟨y, m, d⟩ else none

/-- Python date comparison `a <= b` (lexicographic on components). -/
def dateLe (a b : PyDate) : Bool :=
  decide (a.year < b.year ∨ (a.year = b.year ∧
    (a.month < b.month ∨ (a.month = b.month ∧ a.day ≤ b.day))))

/-- Python date comparison `a < b` (lexicographic on components). -/
def dateLt (a b : PyDate) : Bool :=
  decide (a.year < b.year ∨ (a.year = b.year ∧
    (a.month < b.month ∨ (a.month = b.month ∧ a.day < b.day))))

/-- Python `min(a, b)` on dates (returns the first argument on ties). -/
def pyMinDate (a b : PyDate) : PyDate :=
  if dateLt b a then b else a

/-- The day after `d`: `d + timedelta(days=1)` (year-9999 overflow, where
Python raises `OverflowError`, is outside the modelled domain). -/
def succDay (d : PyDate) : PyDate :=
  if d.day < daysInMonth d.year d.month then ⟨d.year, d.month, d.day + 1⟩
  else if d.month < 12 then ⟨d.year, d.month + 1, 1⟩
  else ⟨d.year + 1, 1, 1⟩

/-- The day before `d`: `d - timedelta(days=1)`. -/
def predDay (d : PyDate) : PyDate :=
  if 1 < d.day then ⟨d.year, d.month, d.day - 1⟩
  else if 1 < d.month then ⟨d.year, d.month - 1, daysInMonth d.year (d.month - 1)⟩
  else ⟨d.year - 1, 12, 31⟩

/-- `d + timedelta(days=n)` for a nonnegative day count. -/
def addDaysNat : Nat → PyDate → PyDate
  | 0, d => d
  | n + 1, d => addDaysNat n (succDay d)

/-- `d - timedelta(days=n)` for a nonnegative day count. -/
def subDaysNat : Nat → PyDate → PyDate
  | 0, d => d
  | n + 1, d => subDaysNat n (predDay d)

/-- `d + timedelta(days=n)` for a possibly negative day count. -/
def addDaysInt (n : Int) (d : PyDate) : PyDate :=
  if 0 ≤ n then addDaysNat n.toNat d else subDaysNat (-n).toNat d

/-- Days before the start of month `m` in year `y`
(Python `datetime._days_before_month`). -/
def daysBeforeMonth (y m : Int) : Int :=
  (if m ≤ 1 then 0 else if m ≤ 2 then 31 else if m ≤ 3 then 59
   else if m ≤ 4 then 90 else if m ≤ 5 then 120 else if m ≤ 6 then 151
   else if m ≤ 7 then 181 else if m ≤ 8 then 212 else if m ≤ 9 then 243
   else if m ≤ 10 then 273 else if m ≤ 11 then 304 else 334)
  + (if 2 < m && isLeapYear y then 1 else 0)

/-- Python `date.toordinal()`: day number with 0001-01-01 as day 1. -/
def toOrdinal (d : PyDate) : Int :=
  365 * (d.year - 1) + (d.year - 1) / 4 - (d.year - 1) / 100 + (d.year - 1) / 400
    + daysBeforeMonth d.year d.month + d.day

/-- Python `date.weekday()`: 0 = Monday .. 6 = Sunday. -/
def pyWeekday (d : PyDate) : Int :=
  (toOrdinal d - 1) % 7

/-! ## Recurrence expansion (database.py, `generate_recurrence_instances`)

The generator copies a base reminder row and inserts one copy per occurrence.
`RemRow` mirrors the 19 columns of the INSERT at database.py:849-877; the
`.get(...)` defaults the Python code applies to the base dictionary
(`time_required` False, `location_radius` 100, `priority` 'chill', `status`
'pending', `source` 'manual') are presupplied by typing the base as a total
record. Generated UUIDs are modelled by a counter supply; REAL columns
(lat/lng) are carried as opaque strings. -/

structure RemRow where
  id : Nat
  text : String
  due_date : Option PyDate
  due_time : Option String
  time_required : Bool
  location_name : Option String
  location_address : Option String
  location_lat : Option String
  location_lng : Option String
  location_radius : Int
  priority : String
  category : Option String
  status : String
  completed_at : Option String
  snoozed_until : Option String
  recurrence_id : Option String
  source : String
  created_at : String
  updated_at : String
deriving DecidableEq, Repr

/-- A row of the `recurrence_patterns` table as the generator reads it
(database.py:790-793, 825, 835).  `days_of_week` is stored as a
comma-separated string and parsed with `int(...)`; it is modelled already
parsed, with `none` covering the falsy cases (NULL / empty string).
`end_count` and `day_of_month` keep Python truthiness: a stored 0 is falsy
and disables the corresponding check.  `month_of_year` is never read by the
generator. -/
structure RecPattern where
  frequency : String
  interval : Int
  days_of_week : Option (List Int)
  day_of_month : Option Int
  month_of_year : Option Int
  end_date : Option PyDate
  end_count : Option Int
deriving DecidableEq, Repr

/-- `if end_count and instance_count >= end_count:` (database.py:820). -/
def endCountReached (ec : Option Int) (count : Int) : Bool :=
  match ec with
  | some n => n != 0 && count ≥ n
  | none => false

/-- Weekly filter: `if current_date.weekday() not in allowed_days:`
(database.py:824-831); `none` covers a NULL/empty `days_of_week`. -/
def weeklySkip (dow : Option (List Int)) (cur : PyDate) : Bool :=
  match dow with
  | some allowed => !(allowed.contains (pyWeekday cur))
  | none => false

/-- Monthly filter: `if day_of_month and current_date.day != day_of_month:`
(database.py:834-838). -/
def monthlySkip (dom : Option Int) (cur : PyDate) : Bool :=
  match dom with
  | some dm => dm != 0 && cur.day != dm
  | none => false

/-- `calendar.monthrange(y, m)[1]`; `none` models the `IllegalMonthError`
raised for a month outside 1..12. -/
def lastDayOfMonth (y m : Int) : Option Int :=
  if 1 ≤ m && m ≤ 12 then some (daysInMonth y m) else none

/-- The `while month > 12: month -= 12; year += 1` normalisation in the
monthly branch (database.py:896-898), in closed form. -/
def normalizeMonth (y m : Int) : Int × Int :=
  if 12 < m then
    let q := (m - 13) / 12 + 1
    (y + q, m - 12 * q)
  else (y, m)

/-- Per-frequency date advance (database.py:882-908).  Errors model the
uncaught `ValueError`/`IllegalMonthError` paths; an unrecognised frequency
matches none of the branches and leaves the date unchanged. -/
def advanceDate (freq : String) (interval : Int) (startD cur : PyDate) :
    Except String PyDate :=
  if freq == "daily" then
    .ok (addDaysInt interval cur)
  else if freq == "weekly" then
    let c1 := succDay cur
    if pyWeekday c1 == pyWeekday startD && interval > 1 then
      .ok (addDaysInt (7 * (interval - 1)) c1)
    else
      .ok c1
  else if freq == "monthly" then
    let ym := normalizeMonth cur.year (cur.month + interval)
    match mkDate ym.1 ym.2 cur.day with
    | some d => .ok d
    | none =>
      match lastDayOfMonth ym.1 ym.2 with
      | some ld =>
        match mkDate ym.1 ym.2 ld with
        | some d => .ok d
        | none => .error "day is out of range for month"
      | none => .error "bad month number"
  else if freq == "yearly" then
    match mkDate (cur.year + interval) cur.month cur.day with
    | some d => .ok d
    | none => .error "day is out of range for month"
  else
    .ok cur

/-- The instance row built and inserted for one occurrence
(database.py:841-877): a copy of the base with a fresh id, the candidate
date as `due_date`, and both timestamps set to `now`. -/
def emitRow (base : RemRow) (i : Nat) (cur : PyDate) (now : String) : RemRow :=
  { base with id := i, due_date := some cur, created_at := now, updated_at := now }

/-- The loop-invariant configuration of the generation `while` loop. -/
structure GenCfg where
  frequency : String
  interval : Int
  endCount : Option Int
  daysOfWeek : Option (List Int)
  dayOfMonth : Option Int
  startDate : PyDate
  endDate : PyDate
  now : String
  base : RemRow
deriving Repr

/-- The `while current_date <= end_date` loop of
`generate_recurrence_instances` (database.py:818-908), with explicit fuel;
`none` models non-termination.  Returns the inserted rows in order, or the
error that aborts the transaction. -/
def genLoop (cfg : GenCfg) :
    Nat → PyDate → Nat → Int → List RemRow → Option (Except String (List RemRow))
  | 0, _, _, _, _ => none
  | fuel + 1, cur, nid, count, acc =>
    if dateLe cur cfg.endDate = false then some (.ok acc)
    else if endCountReached cfg.endCount count then some (.ok acc)
    else if cfg.frequency == "weekly" && weeklySkip cfg.daysOfWeek cur then
      genLoop cfg fuel (succDay cur) nid count acc
    else if cfg.frequency == "monthly" && monthlySkip cfg.dayOfMonth cur then
      genLoop cfg fuel (succDay cur) nid count acc
    else
      let acc' := acc ++ [emitRow cfg.base nid cur cfg.now]
      match advanceDate cfg.frequency cfg.interval cfg.startDate cur with
      | .ok next => genLoop cfg fuel next (nid + 1) (count + 1) acc'
      | .error e => some (.error e)

/-- Set-up of `generate_recurrence_instances` before the loop
(database.py:790-816): the start date is the base reminder's due date, or
`today` when absent (falsy); the end date is the earlier of
`today + horizon_days` and the pattern's end date. -/
def genCfgOf (base : RemRow) (p : RecPattern) (horizonDays : Nat)
    (today : PyDate) (now : String) : GenCfg :=
  { frequency := p.frequency, interval := p.interval, endCount := p.end_count,
    daysOfWeek := p.days_of_week, dayOfMonth := p.day_of_month,
    startDate := base.due_date.getD today,
    endDate :=
      match p.end_date with
      | some pe => pyMinDate (addDaysNat horizonDays today) pe
      | none => addDaysNat horizonDays today,
    now := now, base := base }

/-- Transaction wrapper of `generate_recurrence_instances`
(database.py:789, 910-916): all inserts run on one connection; on success
they are committed onto the store and the generated ids returned; on an
exception the transaction is rolled back (store unchanged) and the error
re-raised with the `Failed to generate recurrence instances` prefix. -/
def genRun (cfg : GenCfg) (fuel firstId : Nat) (store : List RemRow) :
    Option (List RemRow × Except String (List Nat)) :=
  match genLoop cfg fuel cfg.startDate firstId 0 [] with
  | none => none
  | some (.ok rows) => some (store ++ rows, .ok (rows.map (·.id)))
  | some (.error e) =>
    some (store, .error ("Failed to generate recurrence instances: " ++ e))

/-- `generate_recurrence_instances` (database.py:763-916). -/
def generateRecurrenceInstances (base : RemRow) (p : RecPattern)
    (horizonDays : Nat) (today : PyDate) (now : String) (firstId : Nat)
    (fuel : Nat) (store : List RemRow) :
    Option (List RemRow × Except String (List Nat)) :=
  genRun (genCfgOf base p horizonDays today now) fuel firstId store

/-! ### Concrete fixtures used by counterexamples and witnesses -/

/-- A base reminder row (as built by the create endpoint) due on `d`. -/
def baseRowAt (d : PyDate) : RemRow :=
  { id := 0, text := "water the plants", due_date := some d, due_time := none,
    time_required := false, location_name := none, location_address := none,
    location_lat := none, location_lng := none, location_radius := 100,
    priority := "chill", category := none, status := "pending",
    completed_at := none, snoozed_until := none, recurrence_id := some "pat-1",
    source := "manual", created_at := "2025-01-01T00:00:00+00:00",
    updated_at := "2025-01-01T00:00:00+00:00" }

/-- A recurrence-pattern row with the given frequency and interval and no
constraints or end conditions. -/
def plainPattern (freq : String) (interval : Int) : RecPattern :=
  { frequency := freq, interval := interval, days_of_week := none,
    day_of_month := none, month_of_year := none, end_date := none,
    end_count := none }

/-- A monthly pattern anchored on day `dm` of the month. -/
def monthlyOn (dm : Int) : RecPattern :=
  { plainPattern "monthly" 1 with day_of_month := some dm }

/-- A pattern with the unrecognised frequency `hourly` and an end count of
two occurrences. -/
def hourlyTwice : RecPattern :=
  { plainPattern "hourly" 1 with end_count := some 2 }

/-! ## Sync reconciliation (main.py `sync_reminders`, database.py helpers)

The sync path manipulates rows as Python dicts bound to the 20 columns of
the `reminders` table, so here a row is an association list from column
name to nullable value (`none` is SQL NULL / Python None).  Client payloads
(`SyncChange.data`) are arbitrary dicts over the same representation, where
a missing key is distinct from a present-but-null key.  Values are carried
as opaque strings; ISO timestamps compare lexicographically exactly as
Python compares them.  Every `db_execute` commits its own statement, so the
store threads through each operation and an exception after a committed
INSERT leaves the insert in place. -/

abbrev DbRow := List (String × Option String)

abbrev DbStore := List DbRow

/-- The columns of the `reminders` table (database.py:70-108). -/
def reminderColumns : List String :=
  ["id", "text", "due_date", "due_time", "time_required",
   "location_name", "location_address", "location_lat", "location_lng",
   "location_radius", "priority", "category", "status", "completed_at",
   "snoozed_until", "recurrence_id", "source", "created_at", "updated_at",
   "synced_at"]

/-- Column DEFAULT values from the schema (database.py:70-108). -/
def columnDefault : String → Option String
  | "time_required" => some "0"
  | "location_radius" => some "100"
  | "priority" => some "chill"
  | "status" => some "pending"
  | "source" => some "manual"
  | _ => none

/-- The SQL value of column `k` in row or dict `r` (NULL for an absent
key: in stored rows every column is present, and in a payload dict an
absent key simply contributes no value). -/
def rowVal (r : DbRow) (k : String) : Option String :=
  match r.lookup k with
  | some v => v
  | none => none

/-- Python truthiness of a nullable string (`None` and `""` are falsy). -/
def truthyStr : Option String → Bool
  | some s => s != ""
  | none => false

/-- The `priority` CHECK constraint; NULL passes a SQL CHECK. -/
def priorityOk : Option String → Bool
  | none => true
  | some p => ["someday", "chill", "important", "urgent", "waiting"].contains p

/-- The `status` CHECK constraint; NULL passes a SQL CHECK. -/
def statusOk : Option String → Bool
  | none => true
  | some s => ["pending", "completed", "snoozed"].contains s

/-- The NOT NULL and CHECK constraints a stored row image must satisfy
(database.py:70-108). -/
def rowConstraintsOk (r : DbRow) : Bool :=
  (rowVal r "text").isSome && (rowVal r "created_at").isSome &&
    (rowVal r "updated_at").isSome && priorityOk (rowVal r "priority") &&
    statusOk (rowVal r "status")

/-- `WHERE id = ?` row filter; a NULL id never compares equal in SQL. -/
def rowMatchesId (r : DbRow) (id : String) : Bool :=
  rowVal r "id" == some id

/-- `get_reminder_by_id` (database.py:249-255). -/
def getReminderById (store : DbStore) (id : String) : Option DbRow :=
  store.find? (fun r => rowMatchesId r id)

/-- The row image an INSERT built from `data` stores: provided values where
the dict has the key, column defaults elsewhere. -/
def buildInsertRow (data : DbRow) : DbRow :=
  reminderColumns.map (fun c =>
    (c, match data.lookup c with
        | some v => v
        | none => columnDefault c))

/-- `create_reminder` (database.py:299-319): a dynamic INSERT over exactly
the dict's keys, committed by `db_execute`, then `reminder_data['id']` is
read back.  A dict without an `id` key therefore commits the row and only
then raises `KeyError` — the row stays inserted.  A NULL `id` is accepted
(SQLite does not enforce NOT NULL on a TEXT PRIMARY KEY) and is exempt
from uniqueness. -/
def createReminder (store : DbStore) (data : DbRow) :
    DbStore × Except String (Option String) :=
  if data.any (fun kv => !(reminderColumns.contains kv.1)) then
    (store, .error "no such column")
  else
    let row := buildInsertRow data
    if !(rowConstraintsOk row) then
      (store, .error "constraint failed")
    else
      let inserted : DbStore × Except String (Option String) :=
        (store ++ [row],
          match data.lookup "id" with
          | some v => .ok v
          | none => .error "KeyError: id")
      match rowVal row "id" with
      | some i =>
        if store.any (fun r => rowMatchesId r i) then
          (store, .error "UNIQUE constraint failed: reminders.id")
        else inserted
      | none => inserted

/-- Applying an UPDATE's SET clause to one row image. -/
def patchRow (r : DbRow) (data : DbRow) : DbRow :=
  r.map (fun kv =>
    match data.lookup kv.1 with
    | some v => (kv.1, v)
    | none => kv)

/-- `update_reminder` (database.py:322-344): `False` for an empty dict,
otherwise a dynamic `UPDATE ... WHERE id = ?`, reporting whether any row
was affected.  The statement is atomic: a constraint violation on any
affected row image rolls the whole statement back.  (A patch rewriting
`id` into a collision with an untouched row is not modelled; no caller
patches `id`.) -/
def updateReminder (store : DbStore) (id : String) (data : DbRow) :
    DbStore × Except String Bool :=
  if data.isEmpty then (store, .ok false)
  else if data.any (fun kv => !(reminderColumns.contains kv.1)) then
    (store, .error "no such column")
  else if store.any (fun r =>
      rowMatchesId r id && !(rowConstraintsOk (patchRow r data))) then
    (store, .error "constraint failed")
  else
    (store.map (fun r => if rowMatchesId r id then patchRow r data else r),
      .ok (store.any (fun r => rowMatchesId r id)))

/-- `delete_reminder` (database.py:347-353). -/
def deleteReminder (store : DbStore) (id : String) :
    DbStore × Except String Bool :=
  (store.filter (fun r => !(rowMatchesId r id)),
    .ok (store.any (fun r => rowMatchesId r id)))

/-- `apply_sync_change` (database.py:477-503).  `if not data` is Python
truthiness: both a missing and an empty dict are skipped with `False`. -/
def applySyncChange (store : DbStore) (changeId action : String)
    (data : Option DbRow) : DbStore × Except String Bool :=
  if action == "delete" then
    deleteReminder store changeId
  else if action == "create" then
    match data with
    | none => (store, .ok false)
    | some d =>
      if d.isEmpty then (store, .ok false)
      else
        let res := createReminder store d
        (res.1, res.2.map (fun _ => true))
  else if action == "update" then
    match data with
    | none => (store, .ok false)
    | some d =>
      if d.isEmpty then (store, .ok false)
      else updateReminder store changeId d
  else (store, .ok false)

/-- `update_synced_at` (database.py:506-520). -/
def updateSyncedAt (store : DbStore) (id : String) (syncedAt : String) :
    DbStore :=
  store.map (fun r =>
    if rowMatchesId r id then patchRow r [("synced_at", some syncedAt)] else r)

/-- A client-submitted sync change (models.py `SyncChange`). -/
structure SyncChange where
  id : String
  action : String
  data : Option DbRow
  updatedAt : String
deriving DecidableEq, Repr

/-- A conflict entry of the sync response (models.py `ConflictInfo`). -/
structure ConflictInfo where
  id : String
  clientUpdatedAt : String
  serverUpdatedAt : String
  resolution : String
deriving DecidableEq, Repr

/-- The apply part of one loop iteration of `sync_reminders`
(main.py:743-755): apply the change, count it only on success, stamp
`synced_at` on non-deletes, and swallow any exception (keeping the store
as the failed operation left it — every statement commits on its own). -/
def finishApply (store : DbStore) (now : String) (c : SyncChange)
    (ks : List ConflictInfo) : DbStore × Bool × List ConflictInfo :=
  let res := applySyncChange store c.id c.action c.data
  match res.2 with
  | .error _ => (res.1, false, ks)
  | .ok true =>
    ((if c.action != "delete" then updateSyncedAt res.1 c.id now else res.1),
      true, ks)
  | .ok false => (res.1, false, ks)

/-- One full iteration of the `for change in sync_request.changes` loop of
`sync_reminders` (main.py:712-755): conflict detection for updates of
existing rows (both timestamps truthy, last-write-wins with strict server
precedence), then the apply step.  Returns the resulting store, whether
the change counted towards `applied_count`, and the conflict entries it
appended. -/
def processChange (store : DbStore) (now : String) (c : SyncChange) :
    DbStore × Bool × List ConflictInfo :=
  match getReminderById store c.id with
  | some row =>
    if c.action == "update" then
      match rowVal row "updated_at" with
      | some sv =>
        if sv != "" && c.updatedAt != "" then
          if decide (c.updatedAt < sv) then
            (store, false, [⟨c.id, c.updatedAt, sv, "server_wins"⟩])
          else
            finishApply store now c [⟨c.id, c.updatedAt, sv, "client_wins"⟩]
        else finishApply store now c []
      | none => finishApply store now c []
    else finishApply store now c []
  | none => finishApply store now c []

/-- Step 1 of `sync_reminders` (main.py:711-755): fold the per-change
processing over the batch, accumulating `applied_count` and the conflict
list. -/
def applyClientChanges (store : DbStore) (now : String) :
    List SyncChange → DbStore × Nat × List ConflictInfo
  | [] => (store, 0, [])
  | c :: cs =>
    let step := processChange store now c
    let rest := applyClientChanges step.1 now cs
    (rest.1, (if step.2.1 then 1 else 0) + rest.2.1, step.2.2 ++ rest.2.2)

/-- Independent recount of the changes whose database apply reported
success along the same trace (the condition under which the source
increments `applied_count`). -/
def writtenCount (store : DbStore) (now : String) : List SyncChange → Nat
  | [] => 0
  | c :: cs =>
    (if (processChange store now c).2.1 then 1 else 0) +
      writtenCount (processChange store now c).1 now cs

/-! ## Reminder mutations (main.py create / update endpoints)

The create endpoint builds the full row dict itself; the update endpoint
builds a partial dict from the fields the client set.  Payload values are
carried as the strings they are stored as (booleans pre-rendered `1`/`0`). -/

/-- The validated body of `POST /api/reminders` (models.py
`ReminderCreate`), after Pydantic defaults. -/
structure ReminderCreatePayload where
  text : String
  due_date : Option String
  due_time : Option String
  time_required : Bool
  location_name : Option String
  location_address : Option String
  location_lat : Option String
  location_lng : Option String
  location_radius : Option String
  priority : String
  category : Option String
  status : String
  snoozed_until : Option String
  recurrence_id : Option String
  source : String
deriving Repr

/-- The `reminder_data` dict built by the create endpoint
(main.py:228-249): `completed_at` is always `None` — regardless of
`status` — and both timestamps are the current time. -/
def mkReminderData (r : ReminderCreatePayload) (rid now : String) : DbRow :=
  [("id", some rid), ("text", some r.text), ("due_date", r.due_date),
   ("due_time", r.due_time),
   ("time_required", some (if r.time_required then "1" else "0")),
   ("location_name", r.location_name),
   ("location_address", r.location_address),
   ("location_lat", r.location_lat), ("location_lng", r.location_lng),
   ("location_radius", r.location_radius), ("priority", some r.priority),
   ("category", r.category), ("status", some r.status),
   ("completed_at", none), ("snoozed_until", r.snoozed_until),
   ("recurrence_id", r.recurrence_id), ("source", some r.source),
   ("created_at", some now), ("updated_at", some now), ("synced_at", none)]

/-- Python dict assignment `d[k] = v` (replaces in place or appends). -/
def setKey (d : DbRow) (k : String) (v : Option String) : DbRow :=
  if d.any (fun kv => kv.1 == k) then
    d.map (fun kv => if kv.1 == k then (k, v) else kv)
  else d ++ [(k, v)]

/-- Statement at main.py:611-612: set `completed_at` to now when status is
being set to `completed` and no truthy `completed_at` was supplied. -/
def updCompleted (u1 : DbRow) (now : String) : DbRow :=
  if rowVal u1 "status" == some "completed" &&
      !(truthyStr (rowVal u1 "completed_at")) then
    setKey u1 "completed_at" (some now)
  else u1

/-- Statement at main.py:615-616: render a supplied `time_required` as
1/0. -/
def updTimeReq (u2 : DbRow) : DbRow :=
  if u2.any (fun kv => kv.1 == "time_required") then
    setKey u2 "time_required"
      (some (if truthyStr (rowVal u2 "time_required") then "1" else "0"))
  else u2

/-- The `update_data` dict the update endpoint sends to the store
(main.py:604-616), from the fields `u` the client set: always refresh
`updated_at`, then the completed-status and time-required fixups. -/
def updateEndpointData (u : DbRow) (now : String) : DbRow :=
  updTimeReq (updCompleted (setKey u "updated_at" (some now)) now)

/-! ### Concrete sync fixtures -/

/-- A stored server row with id `r1`, last updated 2025-02-01. -/
def sampleDbRow : DbRow :=
  buildInsertRow [("id", some "r1"), ("text", some "old text"),
    ("created_at", some "2025-01-01T00:00:00+00:00"),
    ("updated_at", some "2025-02-01T00:00:00+00:00")]

/-- A malformed sync change: an update carrying no data. -/
def malformedUpdate : SyncChange :=
  { id := "r1", action := "update", data := none,
    updatedAt := "2025-03-01T00:00:00+00:00" }

/-- A well-formed create change for a fresh id `r2`. -/
def goodCreate : SyncChange :=
  { id := "r2", action := "create",
    data := some [("id", some "r2"), ("text", some "new row"),
      ("created_at", some "2025-03-01T00:00:00+00:00"),
      ("updated_at", some "2025-03-01T00:00:00+00:00")],
    updatedAt := "2025-03-01T00:00:00+00:00" }

/-- A create change whose data dict lacks the `id` key. -/
def createWithoutId : SyncChange :=
  { id := "x1", action := "create",
    data := some [("text", some "stray"),
      ("created_at", some "2025-03-01T00:00:00+00:00"),
      ("updated_at", some "2025-03-01T00:00:00+00:00")],
    updatedAt := "2025-03-01T00:00:00+00:00" }

/-- A create-endpoint body whose status is `completed`. -/
def completedCreatePayload : ReminderCreatePayload :=
  { text := "ship the report", due_date := none, due_time := none,
    time_required := false, location_name := none, location_address := none,
    location_lat := none, location_lng := none,
    location_radius := some "100", priority := "chill", category := none,
    status := "completed", snoozed_until := none, recurrence_id := none,
    source := "manual" }


/-! ## Theorems -/

/-! ### Order facts about the calendar model -/

theorem dateLe_refl (a : PyDate) : dateLe a a = true := by
  simp [dateLe]

theorem dateLe_of_dateLt {a b : PyDate} (h : dateLt a b = true) : dateLe a b = true := by
  simp only [dateLt, decide_eq_true_eq] at h
  simp only [dateLe, decide_eq_true_eq]
  omega

theorem dateLt_trans {a b c : PyDate} (h1 : dateLt a b = true) (h2 : dateLt b c = true) :
    dateLt a c = true := by
  simp only [dateLt, decide_eq_true_eq] at *
  omega

theorem dateLe_false_of_dateLt {a b : PyDate} (h : dateLt a b = true) :
    dateLe b a = false := by
  simp only [dateLt, decide_eq_true_eq] at h
  simp only [dateLe, decide_eq_false_iff_not, decide_eq_true_eq]
  omega

theorem dateLt_succDay (d : PyDate) : dateLt d (succDay d) = true := by
  unfold succDay
  split
  · simp [dateLt]
  · split
    · simp [dateLt]
    · simp [dateLt]

theorem addDaysNat_succ_comm (n : Nat) (d : PyDate) :
    addDaysNat (n + 1) d = succDay (addDaysNat n d) := by
  induction n generalizing d with
  | zero => rfl
  | succ m ih =>
    show addDaysNat (m + 1) (succDay d) = succDay (addDaysNat (m + 1) d)
    rw [ih (succDay d)]
    rfl

theorem addDaysNat_add (a b : Nat) (d : PyDate) :
    addDaysNat (a + b) d = addDaysNat b (addDaysNat a d) := by
  induction a generalizing d with
  | zero => simp [addDaysNat]
  | succ m ih =>
    have : m + 1 + b = (m + b) + 1 := by omega
    rw [this]
    show addDaysNat (m + b) (succDay d) = addDaysNat b (addDaysNat (m + 1) d)
    rw [ih (succDay d)]
    rfl

theorem dateLt_addDaysNat_pos {n : Nat} (hn : 0 < n) (d : PyDate) :
    dateLt d (addDaysNat n d) = true := by
  induction n with
  | zero => omega
  | succ m ih =>
    rw [addDaysNat_succ_comm]
    rcases Nat.eq_zero_or_pos m with hm | hm
    · subst hm
      exact dateLt_succDay d
    · exact dateLt_trans (ih hm) (dateLt_succDay _)

theorem dateLe_addDaysNat_of_le {a b : Nat} (h : a ≤ b) (d : PyDate) :
    dateLe (addDaysNat a d) (addDaysNat b d) = true := by
  rcases Nat.eq_or_lt_of_le h with rfl | hlt
  · exact dateLe_refl _
  · have : b = a + (b - a) := by omega
    rw [this, addDaysNat_add]
    exact dateLe_of_dateLt (dateLt_addDaysNat_pos (by omega) _)

theorem dateLe_addDaysNat_false_of_gt {a b : Nat} (h : b < a) (d : PyDate) :
    dateLe (addDaysNat a d) (addDaysNat b d) = false := by
  have : a = b + (a - b) := by omega
  rw [this, addDaysNat_add]
  exact dateLe_false_of_dateLt (dateLt_addDaysNat_pos (by omega) _)

theorem dateLe_self_addDaysNat (n : Nat) (d : PyDate) :
    dateLe d (addDaysNat n d) = true := by
  cases n with
  | zero => exact dateLe_refl d
  | succ m => exact dateLe_of_dateLt (dateLt_addDaysNat_pos (Nat.succ_pos m) d)

/-! ### Generation-loop lemmas -/

theorem advanceDate_unknown {f : String} (hf1 : f ≠ "daily") (hf2 : f ≠ "weekly")
    (hf3 : f ≠ "monthly") (hf4 : f ≠ "yearly") (iv : Int) (s cur : PyDate) :
    advanceDate f iv s cur = .ok cur := by
  simp [advanceDate, hf1, hf2, hf3, hf4]

/-- If one iteration of the generation loop leaves the candidate date
unchanged while the loop guard stays true and no end count is set, then no
amount of fuel finishes the loop. -/
theorem genLoop_no_progress (cfg : GenCfg) (cur : PyDate)
    (h1 : dateLe cur cfg.endDate = true)
    (h2 : cfg.endCount = none)
    (hw : (cfg.frequency == "weekly" && weeklySkip cfg.daysOfWeek cur) = false)
    (hm : (cfg.frequency == "monthly" && monthlySkip cfg.dayOfMonth cur) = false)
    (ha : advanceDate cfg.frequency cfg.interval cfg.startDate cur = .ok cur) :
    ∀ fuel nid count acc, genLoop cfg fuel cur nid count acc = none := by
  intro fuel
  induction fuel with
  | zero => intro nid count acc; rfl
  | succ f ih =>
    intro nid count acc
    simp only [genLoop, h1, h2, endCountReached, hw, hm, ha]
    exact ih (nid + 1) (count + 1) _

set_option maxRecDepth 4000 in
/-- C1: `generate_recurrence_instances` does not guarantee forward progress
for `interval <= 0`.  With frequency `daily` and `interval = 0` (no end
conditions) the candidate date never advances, so the `while` loop never
terminates: the model returns `none` for every fuel bound.  This refutes
the claim that the function terminates for every pattern with
`interval <= 0`. -/
theorem daily_interval_zero_never_terminates : ∀ fuel,
    generateRecurrenceInstances (baseRowAt ⟨2025, 1, 1⟩)
      (plainPattern "daily" 0) 90 ⟨2025, 1, 1⟩ "2025-01-01T00:00:00+00:00"
      0 fuel [] = none := by
  intro fuel
  have hend : (genCfgOf (baseRowAt ⟨2025, 1, 1⟩) (plainPattern "daily" 0) 90
      ⟨2025, 1, 1⟩ "2025-01-01T00:00:00+00:00").endDate =
      addDaysNat 90 ⟨2025, 1, 1⟩ := rfl
  have h1 : dateLe ⟨2025, 1, 1⟩ (genCfgOf (baseRowAt ⟨2025, 1, 1⟩)
      (plainPattern "daily" 0) 90 ⟨2025, 1, 1⟩
      "2025-01-01T00:00:00+00:00").endDate = true := by
    rw [hend]; exact dateLe_self_addDaysNat 90 ⟨2025, 1, 1⟩
  have h := genLoop_no_progress
    (genCfgOf (baseRowAt ⟨2025, 1, 1⟩) (plainPattern "daily" 0) 90
      ⟨2025, 1, 1⟩ "2025-01-01T00:00:00+00:00") ⟨2025, 1, 1⟩
    h1 rfl rfl rfl rfl
  unfold generateRecurrenceInstances genRun
  rw [show (genCfgOf (baseRowAt ⟨2025, 1, 1⟩) (plainPattern "daily" 0) 90
      ⟨2025, 1, 1⟩ "2025-01-01T00:00:00+00:00").startDate = ⟨2025, 1, 1⟩ from rfl]
  rw [h fuel 0 0 []]

set_option maxRecDepth 2000 in
/-- C4: a yearly pattern whose current occurrence falls on Feb 29 is not
clamped when advancing into a non-leap year: the yearly branch constructs
`date(year + interval, 2, 29)` with no overflow handling, the `ValueError`
aborts the transaction, every already-generated instance is rolled back and
an error is raised — instead of the claimed Feb 28 clamping. -/
theorem yearly_feb29_raises_instead_of_clamping :
    generateRecurrenceInstances (baseRowAt ⟨2024, 2, 29⟩)
      (plainPattern "yearly" 1) 30 ⟨2024, 2, 29⟩ "2024-02-29T00:00:00+00:00"
      0 20 [] =
    some ([], .error
      "Failed to generate recurrence instances: day is out of range for month") := by
  rfl

/-- C10: recurrence expansion is atomic with respect to the store.  Whenever
`generate_recurrence_instances` returns (models: the run finishes within the
fuel bound), it either commits exactly the generated rows on top of the
store and returns their ids, or rolls the transaction back — leaving the
store unchanged — and re-raises the error. -/
theorem recurrence_expansion_atomic (base : RemRow) (p : RecPattern)
    (horizonDays : Nat) (today : PyDate) (now : String) (firstId fuel : Nat)
    (store : List RemRow) (res : List RemRow × Except String (List Nat))
    (hres : generateRecurrenceInstances base p horizonDays today now firstId
      fuel store = some res) :
    (∃ rows : List RemRow, res = (store ++ rows, .ok (rows.map (·.id)))) ∨
    (∃ e : String, res = (store, .error e)) := by
  unfold generateRecurrenceInstances genRun at hres
  cases hgl : genLoop (genCfgOf base p horizonDays today now) fuel
      (genCfgOf base p horizonDays today now).startDate firstId 0 [] with
  | none => rw [hgl] at hres; cases hres
  | some r =>
    rw [hgl] at hres
    cases r with
    | ok rows =>
      left
      exact ⟨rows, by injection hres with h; exact h.symm⟩
    | error e =>
      right
      refine ⟨"Failed to generate recurrence instances: " ++ e, ?_⟩
      injection hres with h
      exact h.symm

set_option maxRecDepth 2000 in
/-- Witness for C10 at a concrete input: the spec's own example pattern
(daily, interval 2, three occurrences within a 4-day horizon) finishes and
lands in the committed branch. -/
theorem recurrence_expansion_atomic_witness :
    (∃ rows : List RemRow,
        (([emitRow (baseRowAt ⟨2025, 11, 9⟩) 7 ⟨2025, 11, 9⟩ "T",
           emitRow (baseRowAt ⟨2025, 11, 9⟩) 8 ⟨2025, 11, 11⟩ "T",
           emitRow (baseRowAt ⟨2025, 11, 9⟩) 9 ⟨2025, 11, 13⟩ "T"],
          (.ok [7, 8, 9] : Except String (List Nat))) =
         ([] ++ rows, .ok (rows.map (·.id))))) ∨
    (∃ e : String,
        (([emitRow (baseRowAt ⟨2025, 11, 9⟩) 7 ⟨2025, 11, 9⟩ "T",
           emitRow (baseRowAt ⟨2025, 11, 9⟩) 8 ⟨2025, 11, 11⟩ "T",
           emitRow (baseRowAt ⟨2025, 11, 9⟩) 9 ⟨2025, 11, 13⟩ "T"],
          (.ok [7, 8, 9] : Except String (List Nat))) = ([], .error e))) :=
  recurrence_expansion_atomic (baseRowAt ⟨2025, 11, 9⟩)
    (plainPattern "daily" 2) 4 ⟨2025, 11, 9⟩ "T" 7 10 [] _ (by rfl)


/-! ### Loop step lemmas -/

theorem genLoop_exit_end {cfg : GenCfg} {fuel : Nat} {cur : PyDate} {nid : Nat}
    {count : Int} {acc : List RemRow} (h : dateLe cur cfg.endDate = false) :
    genLoop cfg (fuel + 1) cur nid count acc = some (.ok acc) := by
  simp [genLoop, h]

theorem genLoop_exit_count {cfg : GenCfg} {fuel : Nat} {cur : PyDate} {nid : Nat}
    {count : Int} {acc : List RemRow} (h1 : dateLe cur cfg.endDate = true)
    (h2 : endCountReached cfg.endCount count = true) :
    genLoop cfg (fuel + 1) cur nid count acc = some (.ok acc) := by
  simp [genLoop, h1, h2]

theorem genLoop_emit {cfg : GenCfg} {fuel : Nat} {cur next : PyDate} {nid : Nat}
    {count : Int} {acc : List RemRow}
    (h1 : dateLe cur cfg.endDate = true)
    (h2 : endCountReached cfg.endCount count = false)
    (hw : (cfg.frequency == "weekly" && weeklySkip cfg.daysOfWeek cur) = false)
    (hm : (cfg.frequency == "monthly" && monthlySkip cfg.dayOfMonth cur) = false)
    (ha : advanceDate cfg.frequency cfg.interval cfg.startDate cur = .ok next) :
    genLoop cfg (fuel + 1) cur nid count acc =
      genLoop cfg fuel next (nid + 1) (count + 1)
        (acc ++ [emitRow cfg.base nid cur cfg.now]) := by
  simp [genLoop, h1, h2, hw, hm, ha]

/-- Shifting the fresh-id supply by one occurrence, for lists of emitted
copies of a fixed date. -/
theorem emit_range_shift (base : RemRow) (cur : PyDate) (now : String) (nid r : Nat) :
    [emitRow base nid cur now] ++
      (List.range r).map (fun j => emitRow base (nid + 1 + j) cur now) =
    (List.range (r + 1)).map (fun j => emitRow base (nid + j) cur now) := by
  rw [List.singleton_append, List.range_succ_eq_map, List.map_cons, List.map_map]
  congr 1
  apply List.map_congr_left
  intro j _
  show emitRow base (nid + 1 + j) cur now = emitRow base (nid + (j + 1)) cur now
  congr 1
  omega

/-- With an unrecognised frequency the loop never advances the candidate
date; with end count `n` and `r` occurrences still outstanding it emits `r`
further copies of the current date and stops. -/
theorem genLoop_unknown_freq (cfg : GenCfg) (cur : PyDate) (n : Nat)
    (hf1 : cfg.frequency ≠ "daily") (hf2 : cfg.frequency ≠ "weekly")
    (hf3 : cfg.frequency ≠ "monthly") (hf4 : cfg.frequency ≠ "yearly")
    (hec : cfg.endCount = some (n : Int)) (hn : 0 < n)
    (hle : dateLe cur cfg.endDate = true) :
    ∀ r, r ≤ n → ∀ (c : Int), c = (n : Int) - (r : Int) →
      ∀ fuel nid acc, r < fuel →
      genLoop cfg fuel cur nid c acc =
        some (.ok (acc ++ (List.range r).map
          (fun j => emitRow cfg.base (nid + j) cur cfg.now))) := by
  have hwg : (cfg.frequency == "weekly") = false := beq_eq_false_iff_ne.mpr hf2
  have hmg : (cfg.frequency == "monthly") = false := beq_eq_false_iff_ne.mpr hf3
  intro r
  induction r with
  | zero =>
    intro _ c hc fuel nid acc hfuel
    obtain ⟨f, rfl⟩ : ∃ f, fuel = f + 1 := ⟨fuel - 1, by omega⟩
    have h2 : endCountReached cfg.endCount c = true := by
      simp only [hec, endCountReached, Bool.and_eq_true, bne_iff_ne, ne_eq,
        decide_eq_true_eq, ge_iff_le]
      omega
    rw [genLoop_exit_count hle h2]
    simp
  | succ r ih =>
    intro hr c hc fuel nid acc hfuel
    obtain ⟨f, rfl⟩ : ∃ f, fuel = f + 1 := ⟨fuel - 1, by omega⟩
    have h2 : endCountReached cfg.endCount c = false := by
      simp only [hec, endCountReached]
      have hclt : ¬ (c ≥ (n : Int)) := by omega
      simp [hclt]
    rw [genLoop_emit hle h2 (by rw [hwg]; rfl) (by rw [hmg]; rfl)
      (advanceDate_unknown hf1 hf2 hf3 hf4 cfg.interval cfg.startDate cur)]
    rw [ih (by omega) (c + 1) (by omega) f (nid + 1)
      (acc ++ [emitRow cfg.base nid cur cfg.now]) (by omega)]
    rw [List.append_assoc, emit_range_shift]

set_option maxRecDepth 8000 in
/-- C2 counterexample: `generate_recurrence_instances` does not reject an
unrecognised frequency before the loop.  With frequency `hourly` and
`end_count = 2` it enters the loop, persists two instances (both dated at
the start date, since no advance branch matches) and returns their ids —
rather than returning an error and persisting nothing. -/
theorem invalid_frequency_not_rejected :
    generateRecurrenceInstances (baseRowAt ⟨2025, 1, 1⟩) hourlyTwice 90
      ⟨2025, 1, 1⟩ "2025-01-01T00:00:00+00:00" 0 10 [] =
    some ([emitRow (baseRowAt ⟨2025, 1, 1⟩) 0 ⟨2025, 1, 1⟩
             "2025-01-01T00:00:00+00:00",
           emitRow (baseRowAt ⟨2025, 1, 1⟩) 1 ⟨2025, 1, 1⟩
             "2025-01-01T00:00:00+00:00"],
      .ok [0, 1]) := by
  rfl

/-- C2 (amended): `generate_recurrence_instances` itself never validates
`frequency` (the four-value restriction lives in the API model layer,
models.py `RecurrencePatternCreate`).  For a frequency outside
daily/weekly/monthly/yearly the function enters the loop and emits
instances on the never-advancing start date: with `end_count = n` it
persists exactly `n` instances, and with no end count it never
terminates. -/
theorem invalid_frequency_behavior (f : String) (iv : Int)
    (dow : Option (List Int)) (dom moy : Option Int) (base : RemRow)
    (today : PyDate) (now : String) (i0 : Nat) (store : List RemRow)
    (horizon : Nat)
    (hf1 : f ≠ "daily") (hf2 : f ≠ "weekly") (hf3 : f ≠ "monthly")
    (hf4 : f ≠ "yearly")
    (hstart : dateLe (base.due_date.getD today) (addDaysNat horizon today) = true) :
    (∀ n : Nat, 0 < n → ∀ fuel, n < fuel →
      generateRecurrenceInstances base
          ⟨f, iv, dow, dom, moy, none, some (n : Int)⟩
          horizon today now i0 fuel store =
        some (store ++ (List.range n).map
            (fun j => emitRow base (i0 + j) (base.due_date.getD today) now),
          .ok ((List.range n).map (fun j => i0 + j)))) ∧
    (∀ fuel,
      generateRecurrenceInstances base ⟨f, iv, dow, dom, moy, none, none⟩
          horizon today now i0 fuel store = none) := by
  constructor
  · intro n hn fuel hfuel
    have h := genLoop_unknown_freq
      (genCfgOf base ⟨f, iv, dow, dom, moy, none, some (n : Int)⟩ horizon today now)
      (base.due_date.getD today) n hf1 hf2 hf3 hf4 rfl hn hstart
      n le_rfl 0 (by omega) fuel i0 [] hfuel
    have hb : (genCfgOf base ⟨f, iv, dow, dom, moy, none, some (n : Int)⟩
        horizon today now).base = base := rfl
    have hnw : (genCfgOf base ⟨f, iv, dow, dom, moy, none, some (n : Int)⟩
        horizon today now).now = now := rfl
    simp only [hb, hnw] at h
    unfold generateRecurrenceInstances genRun
    rw [show (genCfgOf base ⟨f, iv, dow, dom, moy, none, some (n : Int)⟩
        horizon today now).startDate = base.due_date.getD today from rfl]
    rw [h]
    simp [List.map_map, Function.comp, emitRow]
  · intro fuel
    have hw : ((genCfgOf base ⟨f, iv, dow, dom, moy, none, none⟩ horizon today
        now).frequency == "weekly") = false := beq_eq_false_iff_ne.mpr hf2
    have hm : ((genCfgOf base ⟨f, iv, dow, dom, moy, none, none⟩ horizon today
        now).frequency == "monthly") = false := beq_eq_false_iff_ne.mpr hf3
    have h := genLoop_no_progress
      (genCfgOf base ⟨f, iv, dow, dom, moy, none, none⟩ horizon today now)
      (base.due_date.getD today) hstart rfl
      (by rw [hw, Bool.false_and]) (by rw [hm, Bool.false_and])
      (advanceDate_unknown hf1 hf2 hf3 hf4 _ _ _)
    unfold generateRecurrenceInstances genRun
    rw [show (genCfgOf base ⟨f, iv, dow, dom, moy, none, none⟩
        horizon today now).startDate = base.due_date.getD today from rfl]
    rw [h fuel i0 0 []]

/-- Witness for the amended C2 behaviour at a concrete input: the `hourly`
pattern with end count 2 emits exactly two instances on the start date, and
the same pattern without an end count never terminates. -/
theorem invalid_frequency_behavior_witness :
    (generateRecurrenceInstances (baseRowAt ⟨2025, 1, 1⟩)
        ⟨"hourly", 1, none, none, none, none, some ((2 : Nat) : Int)⟩ 90
        ⟨2025, 1, 1⟩ "T" 0 10 [] =
      some ([] ++ (List.range 2).map
          (fun j => emitRow (baseRowAt ⟨2025, 1, 1⟩) (0 + j)
            (((baseRowAt ⟨2025, 1, 1⟩).due_date).getD ⟨2025, 1, 1⟩) "T"),
        .ok ((List.range 2).map (fun j => 0 + j)))) ∧
    (∀ fuel,
      generateRecurrenceInstances (baseRowAt ⟨2025, 1, 1⟩)
        ⟨"hourly", 1, none, none, none, none, none⟩ 90
        ⟨2025, 1, 1⟩ "T" 0 fuel [] = none) := by
  have h := invalid_frequency_behavior "hourly" 1 none none none
    (baseRowAt ⟨2025, 1, 1⟩) ⟨2025, 1, 1⟩ "T" 0 [] 90
    (by decide) (by decide) (by decide) (by decide)
    (dateLe_self_addDaysNat 90 ⟨2025, 1, 1⟩)
  exact ⟨h.1 2 (by omega) 10 (by omega), h.2⟩

set_option maxRecDepth 8000 in
/-- C3: the monthly day-of-month clamping policy is violated in both modes.
Without `day_of_month`, a pattern anchored on Jan 31 drifts after the first
clamp: the generated dates are Jan 31, Feb 28, Mar 28, Apr 28, although
day 28 is neither the anchor day 31 nor the last day of March (which has 31
days).  With `day_of_month = 30`, months shorter than the anchor are
skipped entirely instead of clamped: starting Jan 30 the generated dates
are Jan 30, Mar 30, Apr 30 — February yields no instance at all. -/
theorem monthly_clamping_policy_violated :
    (generateRecurrenceInstances (baseRowAt ⟨2025, 1, 31⟩)
        (plainPattern "monthly" 1) 90 ⟨2025, 1, 31⟩ "T" 0 20 [] =
      some ([emitRow (baseRowAt ⟨2025, 1, 31⟩) 0 ⟨2025, 1, 31⟩ "T",
             emitRow (baseRowAt ⟨2025, 1, 31⟩) 1 ⟨2025, 2, 28⟩ "T",
             emitRow (baseRowAt ⟨2025, 1, 31⟩) 2 ⟨2025, 3, 28⟩ "T",
             emitRow (baseRowAt ⟨2025, 1, 31⟩) 3 ⟨2025, 4, 28⟩ "T"],
        .ok [0, 1, 2, 3])) ∧
    daysInMonth 2025 3 = 31 ∧
    (generateRecurrenceInstances (baseRowAt ⟨2025, 1, 30⟩) (monthlyOn 30) 90
        ⟨2025, 1, 30⟩ "T" 0 60 [] =
      some ([emitRow (baseRowAt ⟨2025, 1, 30⟩) 0 ⟨2025, 1, 30⟩ "T",
             emitRow (baseRowAt ⟨2025, 1, 30⟩) 1 ⟨2025, 3, 30⟩ "T",
             emitRow (baseRowAt ⟨2025, 1, 30⟩) 2 ⟨2025, 4, 30⟩ "T"],
        .ok [0, 1, 2])) := by
  refine ⟨by rfl, by rfl, by rfl⟩


theorem addDaysNat_zero (d : PyDate) : addDaysNat 0 d = d := rfl

/-- The generation loop for a daily pattern with interval `k`, end date
`today + h` and no end count: starting `t` occurrences in, it emits one
instance every `k` days until the horizon is passed. -/
theorem genLoop_daily (cfg : GenCfg) (today : PyDate) (h k : Nat) (hk : 0 < k)
    (hf : cfg.frequency = "daily") (hi : cfg.interval = (k : Int))
    (hec : cfg.endCount = none) (hend : cfg.endDate = addDaysNat h today) :
    ∀ r t, h / k + 1 = t + r → ∀ fuel nid (count : Int) acc, r < fuel →
      genLoop cfg fuel (addDaysNat (t * k) today) nid count acc =
        some (.ok (acc ++ (List.range r).map
          (fun j => emitRow cfg.base (nid + j) (addDaysNat ((t + j) * k) today)
            cfg.now))) := by
  intro r
  induction r with
  | zero =>
    intro t ht fuel nid count acc hfuel
    obtain ⟨fl, rfl⟩ : ∃ fl, fuel = fl + 1 := ⟨fuel - 1, by omega⟩
    have hgt : h < t * k := by
      have h1 : k * (h / k) + h % k = h := Nat.div_add_mod h k
      have h2 : h % k < k := Nat.mod_lt _ hk
      have h3 : h < k * (h / k) + k := by omega
      have ht' : t = h / k + 1 := by omega
      rw [ht']
      calc h < k * (h / k) + k := h3
        _ = (h / k + 1) * k := by ring
    have hfalse : dateLe (addDaysNat (t * k) today) cfg.endDate = false := by
      rw [hend]
      exact dateLe_addDaysNat_false_of_gt hgt today
    rw [genLoop_exit_end hfalse]
    simp
  | succ r ih =>
    intro t ht fuel nid count acc hfuel
    obtain ⟨fl, rfl⟩ : ∃ fl, fuel = fl + 1 := ⟨fuel - 1, by omega⟩
    have hlek : t * k ≤ h := by
      have h1 : t ≤ h / k := by omega
      calc t * k ≤ (h / k) * k := Nat.mul_le_mul_right k h1
        _ ≤ h := Nat.div_mul_le_self h k
    have htrue : dateLe (addDaysNat (t * k) today) cfg.endDate = true := by
      rw [hend]
      exact dateLe_addDaysNat_of_le hlek today
    have hecf : endCountReached cfg.endCount count = false := by rw [hec]; rfl
    have hwg :
        (cfg.frequency == "weekly" &&
          weeklySkip cfg.daysOfWeek (addDaysNat (t * k) today)) = false := by
      rw [hf]; rfl
    have hmg :
        (cfg.frequency == "monthly" &&
          monthlySkip cfg.dayOfMonth (addDaysNat (t * k) today)) = false := by
      rw [hf]; rfl
    have hadv : advanceDate cfg.frequency cfg.interval cfg.startDate
        (addDaysNat (t * k) today) = .ok (addDaysNat ((t + 1) * k) today) := by
      rw [hf, hi]
      simp only [advanceDate, beq_self_eq_true, if_pos]
      congr 1
      rw [addDaysInt, if_pos (Int.natCast_nonneg k), Int.toNat_natCast,
        ← addDaysNat_add]
      congr 1
      ring
    rw [genLoop_emit htrue hecf hwg hmg hadv]
    rw [ih (t + 1) (by omega) fl (nid + 1) (count + 1)
      (acc ++ [emitRow cfg.base nid (addDaysNat (t * k) today) cfg.now]) (by omega)]
    rw [List.append_assoc]
    congr 2
    rw [List.singleton_append, List.range_succ_eq_map, List.map_cons, List.map_map]
    refine congrArg (fun l => acc ++ l) ?_
    refine congrArg₂ List.cons rfl ?_
    apply List.map_congr_left
    intro j _
    show emitRow cfg.base (nid + 1 + j) (addDaysNat ((t + 1 + j) * k) today) cfg.now =
      emitRow cfg.base (nid + (j + 1)) (addDaysNat ((t + (j + 1)) * k) today) cfg.now
    have e1 : nid + 1 + j = nid + (j + 1) := by omega
    have e2 : (t + 1 + j) * k = (t + (j + 1)) * k := by
      rw [show t + 1 + j = t + (j + 1) from by omega]
    rw [e1, e2]

/-- C5: for a daily pattern with interval `k >= 1`, no end conditions, and a
start date equal to `today`, generation over an `h`-day horizon produces
exactly `h / k + 1` instances, due on `today`, `today + k`, `today + 2k`,
and so on.  The validity hypothesis keeps the run inside the calendar range
where the Python `date` arithmetic does not raise `OverflowError`. -/
theorem daily_instance_count (base : RemRow) (p : RecPattern) (today : PyDate)
    (h k : Nat) (now : String) (i0 : Nat) (store : List RemRow) (fuel : Nat)
    (hk : 0 < k) (hf : p.frequency = "daily") (hi : p.interval = (k : Int))
    (hec : p.end_count = none) (hed : p.end_date = none)
    (hdue : base.due_date = some today)
    (_hval : (addDaysNat h today).isValid = true)
    (hfuel : h / k + 1 < fuel) :
    generateRecurrenceInstances base p h today now i0 fuel store =
      some (store ++ (List.range (h / k + 1)).map
          (fun j => emitRow base (i0 + j) (addDaysNat (j * k) today) now),
        .ok ((List.range (h / k + 1)).map (fun j => i0 + j))) := by
  have hcf : (genCfgOf base p h today now).frequency = "daily" := by
    simp [genCfgOf, hf]
  have hci : (genCfgOf base p h today now).interval = (k : Int) := by
    simp [genCfgOf, hi]
  have hcec : (genCfgOf base p h today now).endCount = none := by
    simp [genCfgOf, hec]
  have hcend : (genCfgOf base p h today now).endDate = addDaysNat h today := by
    simp [genCfgOf, hed]
  have hcstart : (genCfgOf base p h today now).startDate = today := by
    simp [genCfgOf, hdue]
  have hcb : (genCfgOf base p h today now).base = base := rfl
  have hcn : (genCfgOf base p h today now).now = now := rfl
  have hloop := genLoop_daily (genCfgOf base p h today now) today h k hk hcf hci
    hcec hcend (h / k + 1) 0 (by omega) fuel i0 0 [] hfuel
  simp only [hcb, hcn, Nat.zero_mul, Nat.zero_add, addDaysNat_zero] at hloop
  unfold generateRecurrenceInstances genRun
  rw [hcstart, hloop]
  simp [List.map_map, Function.comp, emitRow]

/-- Witness for C5 at the spec's own example: daily, interval 2, 4-day
horizon starting 2025-11-09 yields the three instances 2025-11-09,
2025-11-11 and 2025-11-13. -/
theorem daily_instance_count_witness :
    generateRecurrenceInstances (baseRowAt ⟨2025, 11, 9⟩)
      (plainPattern "daily" 2) 4 ⟨2025, 11, 9⟩ "T" 0 10 [] =
    some ([] ++ (List.range (4 / 2 + 1)).map
        (fun j => emitRow (baseRowAt ⟨2025, 11, 9⟩) (0 + j)
          (addDaysNat (j * 2) ⟨2025, 11, 9⟩) "T"),
      .ok ((List.range (4 / 2 + 1)).map (fun j => 0 + j))) :=
  daily_instance_count (baseRowAt ⟨2025, 11, 9⟩) (plainPattern "daily" 2)
    ⟨2025, 11, 9⟩ 4 2 "T" 0 [] 10 (by omega) rfl rfl rfl rfl rfl
    (by decide) (by omega)


/-! ### Association-list and store lemmas -/

theorem lookup_cons (a : String) (b : Option String) (d : DbRow) (k : String) :
    List.lookup k ((a, b) :: d) = if k == a then some b else List.lookup k d := by
  cases hc : (k == a) with
  | true => simp [List.lookup, hc]
  | false => simp [List.lookup, hc]

theorem beq_symm_false {a b : String} (h : (a == b) = false) : (b == a) = false := by
  rw [beq_eq_false_iff_ne] at h ⊢
  exact fun e => h e.symm

theorem ne_true_of_eq_false {b : Bool} (h : b = false) : ¬(b = true) := by
  simp [h]

theorem lookup_setKey_self (d : DbRow) (k : String) (v : Option String) :
    (setKey d k v).lookup k = some v := by
  unfold setKey
  by_cases h : (d.any fun kv => kv.1 == k) = true
  · rw [if_pos h]
    induction d with
    | nil => simp at h
    | cons kv d ih =>
      obtain ⟨a, b⟩ := kv
      by_cases hk : (((a, b) : String × Option String).1 == k) = true
      · rw [List.map_cons, if_pos hk, lookup_cons, if_pos (beq_self_eq_true k)]
      · have hk0 : ((a : String) == k) = false := (Bool.not_eq_true _).mp hk
        have hk1 : (k == a) = false := beq_symm_false hk0
        rw [List.map_cons, if_neg hk, lookup_cons,
          if_neg (ne_true_of_eq_false hk1)]
        apply ih
        simp only [List.any_cons] at h
        simp only [hk0, Bool.false_or] at h
        exact h
  · rw [if_neg h]
    rw [Bool.not_eq_true, List.any_eq_false] at h
    induction d with
    | nil => simp [List.lookup]
    | cons kv d ih =>
      obtain ⟨a, b⟩ := kv
      have hk0 : ((a : String) == k) = false := by
        have := h (a, b) (by simp)
        simpa using this
      have hk1 : (k == a) = false := beq_symm_false hk0
      rw [List.cons_append, lookup_cons, if_neg (ne_true_of_eq_false hk1)]
      exact ih (fun x hx => h x (by simp [hx]))

theorem lookup_setKey_ne (d : DbRow) (k k' : String) (v : Option String)
    (hne : k' ≠ k) : (setKey d k v).lookup k' = d.lookup k' := by
  have hk' : (k' == k) = false := beq_eq_false_iff_ne.mpr hne
  unfold setKey
  by_cases h : (d.any fun kv => kv.1 == k) = true
  · rw [if_pos h]
    clear h
    induction d with
    | nil => simp
    | cons kv d ih =>
      obtain ⟨a, b⟩ := kv
      by_cases hk : (((a, b) : String × Option String).1 == k) = true
      · have ha : a = k := by simpa using hk
        rw [List.map_cons, if_pos hk, lookup_cons, lookup_cons,
          if_neg (ne_true_of_eq_false hk'),
          if_neg (ne_true_of_eq_false (by rw [ha]; exact hk'))]
        exact ih
      · rw [List.map_cons, if_neg hk, lookup_cons, lookup_cons]
        by_cases hcmp : ((k' : String) == a) = true
        · rw [if_pos hcmp, if_pos hcmp]
        · rw [if_neg hcmp, if_neg hcmp]
          exact ih
  · rw [if_neg h]
    clear h
    induction d with
    | nil => simp [List.lookup, ne_true_of_eq_false hk']
    | cons kv d ih =>
      obtain ⟨a, b⟩ := kv
      rw [List.cons_append, lookup_cons, lookup_cons]
      by_cases hcmp : ((k' : String) == a) = true
      · rw [if_pos hcmp, if_pos hcmp]
      · rw [if_neg hcmp, if_neg hcmp]
        exact ih

theorem rowVal_setKey_self (d : DbRow) (k : String) (v : Option String) :
    rowVal (setKey d k v) k = v := by
  rw [rowVal, lookup_setKey_self]

theorem rowVal_setKey_ne (d : DbRow) (k k' : String) (v : Option String)
    (hne : k' ≠ k) : rowVal (setKey d k v) k' = rowVal d k' := by
  rw [rowVal, rowVal, lookup_setKey_ne d k k' v hne]

theorem rowVal_patchRow_of_lookup_none (r d : DbRow) (k : String)
    (h : d.lookup k = none) : rowVal (patchRow r d) k = rowVal r k := by
  unfold patchRow rowVal
  induction r with
  | nil => rfl
  | cons kv r ih =>
    obtain ⟨a, b⟩ := kv
    rw [List.map_cons]
    cases hd : d.lookup (a, b).1 with
    | none =>
      simp only [hd]
      rw [lookup_cons, lookup_cons]
      cases hcmp : (k == a) with
      | true => simp
      | false => simp only [Bool.false_eq_true, if_neg]; exact ih
    | some v =>
      simp only [hd]
      rw [lookup_cons, lookup_cons]
      cases hcmp : (k == a) with
      | true =>
        rw [beq_iff_eq] at hcmp
        simp only at hd
        rw [hcmp] at h
        rw [h] at hd
        cases hd
      | false => simp only [Bool.false_eq_true, if_neg]; exact ih

theorem any_matches_of_getReminderById_some {store : DbStore} {id : String}
    {row : DbRow} (h : getReminderById store id = some row) :
    store.any (fun r => rowMatchesId r id) = true := by
  unfold getReminderById at h
  have hmem := List.mem_of_find?_eq_some h
  have hpred := List.find?_some h
  exact List.any_eq_true.mpr ⟨row, hmem, hpred⟩

theorem any_matches_of_getReminderById_none {store : DbStore} {id : String}
    (h : getReminderById store id = none) :
    store.any (fun r => rowMatchesId r id) = false := by
  unfold getReminderById at h
  rw [List.find?_eq_none] at h
  rw [Bool.eq_false_iff]
  intro hc
  obtain ⟨r, hr, hpr⟩ := List.any_eq_true.mp hc
  exact h r hr hpr


/-- Specialisation of `apply_sync_change` to an update carrying data. -/
theorem applySyncChange_update_some (store : DbStore) (id : String) (d : DbRow) :
    applySyncChange store id "update" (some d) =
      if d.isEmpty then (store, .ok false) else updateReminder store id d := by
  rfl

/-- A well-formed non-empty patch of an existing id updates the matching
rows and reports success. -/
theorem updateReminder_ok (store : DbStore) (id : String) (d : DbRow)
    (hdne : d ≠ [])
    (hcols : ∀ kv ∈ d, reminderColumns.contains kv.1 = true)
    (hconstr : ∀ r ∈ store, rowMatchesId r id = true →
      rowConstraintsOk (patchRow r d) = true) :
    updateReminder store id d =
      (store.map (fun r => if rowMatchesId r id then patchRow r d else r),
        .ok (store.any (fun r => rowMatchesId r id))) := by
  have h1 : d.isEmpty = false := by
    cases d with
    | nil => exact absurd rfl hdne
    | cons a l => rfl
  have h2 : (d.any fun kv => !(reminderColumns.contains kv.1)) = false := by
    rw [Bool.eq_false_iff]
    intro hc
    obtain ⟨kv, hkv, hp⟩ := List.any_eq_true.mp hc
    rw [hcols kv hkv] at hp
    simp at hp
  have h3 : (store.any fun r =>
      rowMatchesId r id && !(rowConstraintsOk (patchRow r d))) = false := by
    rw [Bool.eq_false_iff]
    intro hc
    obtain ⟨r, hr, hp⟩ := List.any_eq_true.mp hc
    rw [Bool.and_eq_true] at hp
    have := hp.2
    rw [hconstr r hr hp.1] at this
    simp at this
  unfold updateReminder
  rw [if_neg (ne_true_of_eq_false h1), if_neg (ne_true_of_eq_false h2),
    if_neg (ne_true_of_eq_false h3)]

/-- C6: last-write-wins conflict resolution in `sync_reminders` for an
update whose id exists on the server, with both timestamps truthy.  If the
server's `updated_at` is strictly greater than the change's, the store is
left unchanged, the change is not counted, and the response carries a
`server_wins` conflict entry.  Otherwise (client greater or equal), the
client payload is applied to the matching rows, `synced_at` is stamped, the
change is counted, and a `client_wins` conflict entry is still recorded. -/
theorem sync_update_conflict_resolution (store : DbStore) (now : String)
    (c : SyncChange) (row : DbRow) (sv : String)
    (hact : c.action = "update")
    (hex : getReminderById store c.id = some row)
    (hsv : rowVal row "updated_at" = some sv)
    (hsv0 : sv ≠ "") (hcv0 : c.updatedAt ≠ "") :
    (c.updatedAt < sv →
      applyClientChanges store now [c] =
        (store, 0, [⟨c.id, c.updatedAt, sv, "server_wins"⟩])) ∧
    (¬(c.updatedAt < sv) → ∀ d, c.data = some d → d ≠ [] →
      (∀ kv ∈ d, reminderColumns.contains kv.1 = true) →
      (∀ r ∈ store, rowMatchesId r c.id = true →
        rowConstraintsOk (patchRow r d) = true) →
      applyClientChanges store now [c] =
        (updateSyncedAt (store.map (fun r =>
            if rowMatchesId r c.id then patchRow r d else r)) c.id now,
          1, [⟨c.id, c.updatedAt, sv, "client_wins"⟩])) := by
  have hsvne : (sv != "") = true := bne_iff_ne.mpr hsv0
  have hcvne : (c.updatedAt != "") = true := bne_iff_ne.mpr hcv0
  constructor
  · intro hlt
    have hp : processChange store now c =
        (store, false, [⟨c.id, c.updatedAt, sv, "server_wins"⟩]) := by
      unfold processChange
      simp [hex, hact, hsv, hsvne, hcvne, hlt]
    simp [applyClientChanges, hp]
  · intro hnlt d hd hdne hcols hconstr
    have hde : d.isEmpty = false := by
      cases d with
      | nil => exact absurd rfl hdne
      | cons a l => rfl
    have hur := updateReminder_ok store c.id d hdne hcols hconstr
    have hany := any_matches_of_getReminderById_some hex
    have hp : processChange store now c =
        (updateSyncedAt (store.map fun r =>
            if rowMatchesId r c.id then patchRow r d else r) c.id now,
          true, [⟨c.id, c.updatedAt, sv, "client_wins"⟩]) := by
      unfold processChange finishApply applySyncChange
      simp [hex, hact, hsv, hsvne, hcvne, hnlt, hd, hde, hur, hany]
    simp [applyClientChanges, hp]

/-- Witness for C6 at a concrete store and change: the server row was
updated 2025-02-01, the client change carries 2025-01-15, so the server
wins and the client payload is skipped. -/
theorem sync_update_conflict_resolution_witness :
    applyClientChanges [sampleDbRow] "NOW"
      [{ id := "r1", action := "update", data := some [("text", some "new")],
         updatedAt := "2025-01-15T00:00:00+00:00" }] =
      ([sampleDbRow], 0,
        [⟨"r1", "2025-01-15T00:00:00+00:00", "2025-02-01T00:00:00+00:00",
          "server_wins"⟩]) :=
  (sync_update_conflict_resolution [sampleDbRow] "NOW" _ sampleDbRow
    "2025-02-01T00:00:00+00:00" rfl (by rfl) (by rfl) (by decide)
    (by decide)).1 (by rw [String.lt_iff_toList_lt]; decide)

/-- C7 counterexample: a sync update whose id has no server record does
not act as a create.  On an empty store the update affects no rows: the
store stays empty (no record is written), `applied_count` is 0 (not 1),
and no conflict is recorded — refuting the claim that the change is
treated as a plain create and counted. -/
theorem sync_update_missing_id_counterexample :
    applyClientChanges [] "NOW"
      [{ id := "r1", action := "update",
         data := some [("text", some "buy milk")],
         updatedAt := "2025-11-03T10:00:00+00:00" }] = ([], 0, []) := by
  rfl

/-- C7 (amended): an update whose id has no server record bypasses the
conflict check — no conflict entry is recorded — but it is not treated as
a create: the UPDATE matches no row, so nothing is written, the store is
unchanged, and the change does not count towards `applied_count`. -/
theorem sync_update_missing_id_is_noop (store : DbStore) (now : String)
    (c : SyncChange) (d : DbRow)
    (hact : c.action = "update") (hdata : c.data = some d)
    (hex : getReminderById store c.id = none) :
    applyClientChanges store now [c] = (store, 0, []) := by
  have hanyf := any_matches_of_getReminderById_none hex
  have happ : applySyncChange store c.id c.action c.data = (store, .ok false) ∨
      applySyncChange store c.id c.action c.data =
        (store, .error "no such column") := by
    rw [hact, hdata, applySyncChange_update_some]
    by_cases hde : d.isEmpty = true
    · left
      rw [if_pos hde]
    · rw [if_neg hde]
      by_cases hbad : (d.any fun kv => !(reminderColumns.contains kv.1)) = true
      · right
        unfold updateReminder
        rw [if_neg (by rw [Bool.not_eq_true] at hde; exact ne_true_of_eq_false hde),
          if_pos hbad]
      · left
        have hc3 : (store.any fun r =>
            rowMatchesId r c.id && !(rowConstraintsOk (patchRow r d))) = false := by
          rw [Bool.eq_false_iff]
          intro hcc
          obtain ⟨r, hr, hp2⟩ := List.any_eq_true.mp hcc
          rw [Bool.and_eq_true] at hp2
          have hx : (store.any fun r => rowMatchesId r c.id) = true :=
            List.any_eq_true.mpr ⟨r, hr, hp2.1⟩
          rw [hanyf] at hx
          cases hx
        have hmap : (store.map fun r =>
            if rowMatchesId r c.id then patchRow r d else r) = store := by
          have hid : ∀ r ∈ store,
              (if rowMatchesId r c.id then patchRow r d else r) = r := by
            intro r hr
            rw [if_neg]
            intro hm
            have hx : (store.any fun r => rowMatchesId r c.id) = true :=
              List.any_eq_true.mpr ⟨r, hr, hm⟩
            rw [hanyf] at hx
            cases hx
          calc store.map _ = store.map id := List.map_congr_left hid
            _ = store := List.map_id store
        unfold updateReminder
        rw [if_neg (by rw [Bool.not_eq_true] at hde; exact ne_true_of_eq_false hde),
          if_neg hbad, if_neg (ne_true_of_eq_false hc3), hmap, hanyf]
  have hp : processChange store now c = (store, false, []) := by
    unfold processChange
    rw [hex]
    unfold finishApply
    rcases happ with h | h
    · rw [h]
    · rw [h]
  simp [applyClientChanges, hp]

/-- Witness for the amended C7 behaviour: an update for the unknown id
`r9` against a store holding only `r1` leaves the store unchanged, counts
nothing and records no conflict. -/
theorem sync_update_missing_id_is_noop_witness :
    applyClientChanges [sampleDbRow] "NOW"
      [{ id := "r9", action := "update", data := some [("text", some "x")],
         updatedAt := "2025-03-01T00:00:00+00:00" }] =
      ([sampleDbRow], 0, []) :=
  sync_update_missing_id_is_noop [sampleDbRow] "NOW" _ [("text", some "x")]
    rfl rfl (by rfl)


/-- Specialisation of `apply_sync_change` to an update with no data. -/
theorem applySyncChange_update_none (store : DbStore) (id : String) :
    applySyncChange store id "update" none = (store, .ok false) := by
  rfl

/-- Specialisation of `apply_sync_change` to a create with no data. -/
theorem applySyncChange_create_none (store : DbStore) (id : String) :
    applySyncChange store id "create" none = (store, .ok false) := by
  rfl

/-- A malformed change (update or create carrying no data) leaves the
store unchanged and does not count, whatever conflict entries it may
record. -/
theorem processChange_malformed (store : DbStore) (now : String)
    (c : SyncChange) (hact : c.action = "update" ∨ c.action = "create")
    (hdata : c.data = none) :
    (processChange store now c).1 = store ∧
      (processChange store now c).2.1 = false := by
  have happ : applySyncChange store c.id c.action c.data = (store, .ok false) := by
    rcases hact with h | h
    · rw [h, hdata, applySyncChange_update_none]
    · rw [h, hdata, applySyncChange_create_none]
  have hfin : ∀ ks, finishApply store now c ks = (store, false, ks) := by
    intro ks
    unfold finishApply
    rw [happ]
  unfold processChange
  cases hex : getReminderById store c.id with
  | none => simp [hfin]
  | some row =>
    rcases hact with h | h
    · rw [h]
      simp only [if_pos (by decide : (("update" : String) == "update") = true),
        hfin]
      repeat' split
      all_goals exact ⟨rfl, rfl⟩
    · rw [h]
      simp only [if_neg (by decide : ¬((("create" : String) == "update") = true))]
      simp [hfin]

/-- C8 counterexample: `applied_count` does not always equal the number of
rows actually written.  A create whose data lacks the `id` key passes the
INSERT (committing a row with a NULL id) and only then raises `KeyError`
when `reminder_data['id']` is read back; the exception is caught by the
sync loop, so the batch result holds one newly written row while
`applied_count` is 0. -/
theorem sync_applied_count_counterexample :
    applyClientChanges [] "NOW" [createWithoutId] =
      ([buildInsertRow [("text", some "stray"),
          ("created_at", some "2025-03-01T00:00:00+00:00"),
          ("updated_at", some "2025-03-01T00:00:00+00:00")]], 0, []) := by
  rfl

/-- C8 (amended): a malformed change (update/create with absent data) is
skipped without aborting the batch — removing it from any position of a
batch changes neither the final store nor `applied_count` — and
`applied_count` equals exactly the number of changes whose database apply
reported success along the trace (which can undercount the rows actually
written, per the counterexample of a create lacking an id). -/
theorem sync_malformed_change_behavior :
    (∀ (store : DbStore) (now : String) (c : SyncChange) cs1 cs2,
      (c.action = "update" ∨ c.action = "create") → c.data = none →
      (applyClientChanges store now (cs1 ++ c :: cs2)).1 =
          (applyClientChanges store now (cs1 ++ cs2)).1 ∧
        (applyClientChanges store now (cs1 ++ c :: cs2)).2.1 =
          (applyClientChanges store now (cs1 ++ cs2)).2.1) ∧
    (∀ (store : DbStore) (now : String) (cs : List SyncChange),
      (applyClientChanges store now cs).2.1 = writtenCount store now cs) := by
  constructor
  · intro store now c cs1 cs2 hact hdata
    induction cs1 generalizing store with
    | nil =>
      obtain ⟨h1, h2⟩ := processChange_malformed store now c hact hdata
      simp only [List.nil_append]
      constructor
      · simp only [applyClientChanges]
        rw [h1]
      · simp only [applyClientChanges]
        rw [h1, h2]
        simp
    | cons c' cs1' ih =>
      simp only [List.cons_append, applyClientChanges]
      constructor
      · exact (ih _).1
      · exact congrArg
          (fun x => (if (processChange store now c').2.1 = true then 1 else 0) + x)
          ((ih _).2)
  · intro store now cs
    induction cs generalizing store with
    | nil => rfl
    | cons c cs ih =>
      simp only [applyClientChanges, writtenCount]
      rw [ih]

/-- Witness for the amended C8 behaviour at a concrete batch: dropping the
malformed update from `[malformedUpdate, goodCreate]` changes neither the
store nor the applied count, and the applied count recounts the successful
applies. -/
theorem sync_malformed_change_behavior_witness :
    ((applyClientChanges [] "NOW" ([] ++ malformedUpdate :: [goodCreate])).1 =
        (applyClientChanges [] "NOW" ([] ++ [goodCreate])).1 ∧
      (applyClientChanges [] "NOW" ([] ++ malformedUpdate :: [goodCreate])).2.1 =
        (applyClientChanges [] "NOW" ([] ++ [goodCreate])).2.1) ∧
    (applyClientChanges [] "NOW" [malformedUpdate, goodCreate]).2.1 =
      writtenCount [] "NOW" [malformedUpdate, goodCreate] :=
  ⟨sync_malformed_change_behavior.1 [] "NOW" malformedUpdate [] [goodCreate]
      (Or.inl rfl) rfl,
    sync_malformed_change_behavior.2 [] "NOW" [malformedUpdate, goodCreate]⟩

/-- C9 counterexample: creating a reminder with status `completed` stores
`completed_at = NULL`.  The create endpoint's dict fixes
`completed_at: None` regardless of the requested status, refuting the
claim that such a create yields a non-null `completed_at`. -/
theorem create_completed_status_counterexample :
    rowVal (mkReminderData completedCreatePayload "id-1"
      "2025-11-03T10:00:00+00:00") "status" = some "completed" ∧
    rowVal (mkReminderData completedCreatePayload "id-1"
      "2025-11-03T10:00:00+00:00") "completed_at" = none := by
  exact ⟨rfl, rfl⟩

theorem rowVal_updTimeReq_ne (u : DbRow) (k : String)
    (h : k ≠ "time_required") : rowVal (updTimeReq u) k = rowVal u k := by
  unfold updTimeReq
  split
  · rw [rowVal_setKey_ne _ _ _ _ h]
  · rfl

theorem lookup_updTimeReq_ne (u : DbRow) (k : String)
    (h : k ≠ "time_required") : (updTimeReq u).lookup k = u.lookup k := by
  unfold updTimeReq
  split
  · rw [lookup_setKey_ne _ _ _ _ h]
  · rfl

theorem rowVal_updCompleted_ne (u : DbRow) (now : String) (k : String)
    (h : k ≠ "completed_at") : rowVal (updCompleted u now) k = rowVal u k := by
  unfold updCompleted
  split
  · rw [rowVal_setKey_ne _ _ _ _ h]
  · rfl

/-- C9 (amended): every mutation refreshes `updated_at`, but `completed_at`
tracks status only on the update path, and only one way.  Creates always
store `completed_at = NULL` (even with status `completed`) while setting
`created_at = updated_at = now`.  Updates always refresh `updated_at`; they
set `completed_at` to now when the payload sets status to `completed`
without a truthy `completed_at`; and a payload that does not set status to
`completed` and carries no `completed_at` key leaves the stored
`completed_at` untouched (it is never cleared). -/
theorem mutation_timestamp_behavior :
    (∀ (r : ReminderCreatePayload) (rid now : String),
        rowVal (mkReminderData r rid now) "completed_at" = none ∧
        rowVal (mkReminderData r rid now) "updated_at" = some now ∧
        rowVal (mkReminderData r rid now) "created_at" = some now) ∧
    (∀ (u : DbRow) (now : String),
        rowVal (updateEndpointData u now) "updated_at" = some now) ∧
    (∀ (u : DbRow) (now : String),
        rowVal u "status" = some "completed" →
        truthyStr (rowVal u "completed_at") = false →
        rowVal (updateEndpointData u now) "completed_at" = some now) ∧
    (∀ (u : DbRow) (now : String) (row : DbRow),
        (rowVal u "status" == some "completed") = false →
        u.lookup "completed_at" = none →
        rowVal (patchRow row (updateEndpointData u now)) "completed_at" =
          rowVal row "completed_at") := by
  refine ⟨fun r rid now => ⟨rfl, rfl, rfl⟩, ?_, ?_, ?_⟩
  · intro u now
    unfold updateEndpointData
    rw [rowVal_updTimeReq_ne _ _ (by decide),
      rowVal_updCompleted_ne _ _ _ (by decide), rowVal_setKey_self]
  · intro u now h1 h2
    have hs : rowVal (setKey u "updated_at" (some now)) "status" =
        some "completed" := by
      rw [rowVal_setKey_ne _ _ _ _ (by decide)]
      exact h1
    have hc : truthyStr (rowVal (setKey u "updated_at" (some now))
        "completed_at") = false := by
      rw [rowVal_setKey_ne _ _ _ _ (by decide)]
      exact h2
    have hguard : (rowVal (setKey u "updated_at" (some now)) "status" ==
        some "completed" &&
        !(truthyStr (rowVal (setKey u "updated_at" (some now))
          "completed_at"))) = true := by
      rw [hs, hc]
      rfl
    unfold updateEndpointData updCompleted
    rw [if_pos hguard, rowVal_updTimeReq_ne _ _ (by decide),
      rowVal_setKey_self]
  · intro u now row h1 h2
    have hlk : (updateEndpointData u now).lookup "completed_at" = none := by
      have hs : rowVal (setKey u "updated_at" (some now)) "status" =
          rowVal u "status" := rowVal_setKey_ne _ _ _ _ (by decide)
      have hguard : (rowVal (setKey u "updated_at" (some now)) "status" ==
          some "completed" &&
          !(truthyStr (rowVal (setKey u "updated_at" (some now))
            "completed_at"))) = false := by
        rw [hs, h1, Bool.false_and]
      unfold updateEndpointData updCompleted
      rw [if_neg (ne_true_of_eq_false hguard),
        lookup_updTimeReq_ne _ _ (by decide),
        lookup_setKey_ne _ _ _ _ (by decide)]
      exact h2
    exact rowVal_patchRow_of_lookup_none row _ _ hlk

/-- Witness for the amended C9 behaviour at concrete payloads: a completed
create stores a NULL `completed_at`; an update that sets status to
`completed` stamps both timestamps; an update to `pending` leaves the
stored row's `completed_at` untouched. -/
theorem mutation_timestamp_behavior_witness :
    rowVal (mkReminderData completedCreatePayload "id-1" "T1")
        "completed_at" = none ∧
    rowVal (updateEndpointData [("status", some "completed")] "T2")
        "updated_at" = some "T2" ∧
    rowVal (updateEndpointData [("status", some "completed")] "T2")
        "completed_at" = some "T2" ∧
    rowVal (patchRow sampleDbRow
        (updateEndpointData [("status", some "pending")] "T3"))
        "completed_at" = rowVal sampleDbRow "completed_at" :=
  ⟨(mutation_timestamp_behavior.1 completedCreatePayload "id-1" "T1").1,
    mutation_timestamp_behavior.2.1 [("status", some "completed")] "T2",
    mutation_timestamp_behavior.2.2.1 [("status", some "completed")] "T2"
      rfl rfl,
    mutation_timestamp_behavior.2.2.2 [("status", some "pending")] "T3"
      sampleDbRow rfl rfl⟩

end ProjectReminder
